import Mathlib

/-!
Shallow embedding of the NES emulator core (src/cpu.rs, src/ppu.rs,
src/memory.rs, src/opcodes.rs) and proofs about it.

Conventions of the embedding:
* Rust machine integers (`u8`, `u16`, `u32`, `i16`) are modelled as `Nat`
  (or `Int` for signed quantities), with an explicit `% 256`, `% 65536` or
  `% 4294967296` exactly where the Rust program performs a narrowing cast
  or where release-profile wrapping arithmetic applies (`+=`, `-=`,
  `wrapping_add`, `wrapping_sub`, `wrapping_shl`, `overflowing_sub`).
* Byte arrays (`[u8; N]`, `Vec<u8>`) are modelled as total functions
  `Nat → Nat`; `Vec` lengths that matter for index-out-of-bounds panics
  are carried alongside (`pgr_len`, `chr_len`).
* A Rust `panic!` (including an out-of-bounds `Vec` index) is modelled by
  returning `none`; fallible operations return `Option`.
-/

namespace Nes

/-- Bit update used to model the `bitflags` `set` method on a `u8` field:
insert the mask on `true`, remove it (byte-complement and) on `false`. -/
def setBits (bits mask : Nat) (value : Bool) : Nat :=
  if value then bits ||| mask else bits &&& (0xff ^^^ mask)

/-- Wrapping 8-bit subtraction `a - b` for `a, b < 256`. -/
def sub8 (a b : Nat) : Nat := (a + 256 - b % 256) % 256

/-- PpuControl flag masks (src/ppu.rs, `bitflags` block). -/
def NAMETABLE_ADDR1 : Nat := 0x01
def NAMETABLE_ADDR2 : Nat := 0x02
def VRAM_ADDR_INCREMENT : Nat := 0x04
def SPRITE_PATTERN_ADDR : Nat := 0x08
def BACKROUND_PATTERN_ADDR : Nat := 0x10
def SPRITE_SIZE : Nat := 0x20
def MASTER_SLAVE_SELECT : Nat := 0x40
def GENERATE_NMI : Nat := 0x80

/-- PpuMask flag masks (src/ppu.rs). -/
def GREYSCALE : Nat := 0x01
def SHOW_BACKGROUND_IN_LEFTMOST_PIXELS : Nat := 0x02
def SHOW_SPRITES_IN_LEFTMOST_PIXELS : Nat := 0x04
def SHOW_BACKGROUND : Nat := 0x08
def SHOW_SPRITES : Nat := 0x10

/-- PpuStatus flag masks (src/ppu.rs). -/
def SPRITE_OVERFLOW : Nat := 0b100000
def SPRITE_ZERO_HIT : Nat := 0b1000000
def V_BLANK : Nat := 0b10000000

/-- LoopyRegister (src/ppu.rs): the scroll/VRAM address split into fields. -/
structure LoopyRegister where
  coarse_x : Nat
  coarse_y : Nat
  name_table_x : Nat
  name_table_y : Nat
  fine_y : Nat
deriving Repr, DecidableEq

/-- LoopyRegister::bits (src/ppu.rs:137-146). -/
def LoopyRegister.bits (r : LoopyRegister) : Nat :=
  ((r.coarse_x &&& 0b11111) <<< 0) |||
  ((r.coarse_y &&& 0b11111) <<< 5) |||
  ((r.name_table_x &&& 1) <<< 10) |||
  ((r.name_table_y &&& 1) <<< 11) |||
  ((r.fine_y &&& 0b111) <<< 12)

/-- LoopyRegister::set / ::from (src/ppu.rs:148-162); `from` is a Lean
keyword, hence the name `fromValue`. -/
def LoopyRegister.fromValue (value : Nat) : LoopyRegister where
  coarse_x := value &&& 0b11111
  coarse_y := (value &&& 0b1111100000) >>> 5
  name_table_x := (value &&& 0b10000000000) >>> 10
  name_table_y := (value &&& 0b100000000000) >>> 11
  fine_y := (value &&& 0b111000000000000) >>> 12

/-- ObjectAttribute (src/ppu.rs:169-176): one OAM entry as stored. -/
structure ObjectAttribute where
  y : Nat
  id : Nat
  attributes : Nat
  x : Nat
deriving Repr, DecidableEq

/-- ObjectAttribute::from (src/ppu.rs:180-183). -/
def ObjectAttribute.fromBytes (b0 b1 b2 b3 : Nat) : ObjectAttribute :=
  { y := b0, id := b1, attributes := b2, x := b3 }

/-- ObjectAttribute::default(): all four bytes zero. -/
def ObjectAttribute.default : ObjectAttribute := { y := 0, id := 0, attributes := 0, x := 0 }

/-- Ppu (src/ppu.rs:11-61): the full PPU state. -/
structure Ppu where
  ppu_control : Nat
  ppu_mask : Nat
  ppu_status : Nat
  ppu_address : Nat
  table_ram_address : Nat
  fine_x : Nat
  address_latch : Bool
  data_buffer : Nat
  scanline : Int
  cycles : Int
  name_tables : Nat → Nat → Nat
  palette : Nat → Nat
  next_background_tile_id : Nat
  next_background_tile_attribute : Nat
  next_background_tile_lsb : Nat
  next_background_tile_msb : Nat
  shifter_pattern_low : Nat
  shifter_pattern_high : Nat
  shifter_attribute_low : Nat
  shifter_attribute_high : Nat
  object_attribute_memory : Nat → Nat
  oam_address : Nat
  current_scanline_sprites : Nat → ObjectAttribute
  current_scanline_sprites_count : Nat
  sprite_shifter_pattern_low : Nat → Nat
  sprite_shifter_pattern_high : Nat → Nat
  sprite_zero_in_scanline : Bool
  sprite_zero_being_rendered : Bool
  output : Nat → Nat
  due_non_maskable_interrupt : Bool

/-- PpuControl::get_sprite_size (src/ppu.rs:102-106). -/
def Ppu.get_sprite_size (p : Ppu) : Nat :=
  if p.ppu_control &&& SPRITE_SIZE ≠ 0 then 16 else 8

/-- PpuMask::rendering_enabled (src/ppu.rs:111-114). -/
def Ppu.rendering_enabled (p : Ppu) : Bool :=
  p.ppu_mask &&& SHOW_BACKGROUND ≠ 0 || p.ppu_mask &&& SHOW_SPRITES ≠ 0

/-- Ppu::default (src/ppu.rs:210-262). -/
def Ppu.default : Ppu where
  ppu_control := 0
  ppu_mask := 0
  ppu_status := 0
  table_ram_address := 0
  ppu_address := 0
  fine_x := 0
  address_latch := false
  data_buffer := 0
  scanline := 0
  cycles := 0
  name_tables := fun _ _ => 0
  palette := fun _ => 0
  next_background_tile_id := 0
  next_background_tile_attribute := 0
  next_background_tile_lsb := 0
  next_background_tile_msb := 0
  shifter_pattern_low := 0
  shifter_pattern_high := 0
  shifter_attribute_low := 0
  shifter_attribute_high := 0
  object_attribute_memory := fun _ => 0
  oam_address := 0
  current_scanline_sprites := fun _ => ObjectAttribute.default
  current_scanline_sprites_count := 0
  sprite_shifter_pattern_low := fun _ => 0
  sprite_shifter_pattern_high := fun _ => 0
  sprite_zero_in_scanline := false
  sprite_zero_being_rendered := false
  output := fun _ => 0
  due_non_maskable_interrupt := false

/-- RomHeader (src/memory.rs:53-63); the flags bytes are kept as raw `Nat`
bitmasks, `pgr_size`/`chr_size` as already-scaled byte counts. -/
structure RomHeader where
  pgr_size : Nat
  chr_size : Nat
  flags_six : Nat
  flags_seven : Nat
  flags_eight : Nat
  flags_nine : Nat
  flags_ten : Nat
deriving Repr, DecidableEq

/-- RomHeader::has_vertical_mirroring (src/memory.rs:90-93): bit 0 of flags 6. -/
def RomHeader.has_vertical_mirroring (h : RomHeader) : Bool :=
  h.flags_six &&& 0b1 ≠ 0

/-- Memory (src/memory.rs:7-22). `pgr_len`/`chr_len` record the lengths
of the two `Vec<u8>`s so that out-of-bounds indexing can be modelled. -/
structure Memory where
  ram : Nat → Nat
  pgr_rom : Nat → Nat
  pgr_len : Nat
  chr_rom : Nat → Nat
  chr_len : Nat
  internal_controller : Nat → Nat
  controller : Nat → Nat
  rom_header : RomHeader
  dma_page : Nat
  dma_address : Nat
  dma_data : Nat
  dma_happening : Bool
  dma_waiting_for_sync : Bool

/-- Memory::read_byte_from_ppu (src/memory.rs:287-292): the PPU-side
cartridge read; `none` models the `Vec` index panic. -/
def Memory.read_byte_from_ppu (m : Memory) (address : Nat) : Option (Bool × Nat) :=
  if address ≤ 0x1fff then
    if address < m.chr_len then some (true, m.chr_rom address) else none
  else some (false, 0)

/-- Memory::write_byte_from_ppu (src/memory.rs:294-299): the PPU-side
cartridge write; returns the handled flag and the updated memory. -/
def Memory.write_byte_from_ppu (m : Memory) (address value : Nat) : Option (Bool × Memory) :=
  if address ≤ 0x1fff then
    if address < m.chr_len then
      some (true, { m with chr_rom := fun i => if i = address then value else m.chr_rom i })
    else none
  else some (false, m)

/-- Ppu::read_byte_from_ppu (src/ppu.rs:400-454): internal PPU address
space read (pattern tables via cartridge, name tables with mirroring,
palettes). The function takes `&mut self` in Rust but does not mutate. -/
def Ppu.read_byte_from_ppu (p : Ppu) (m : Memory) (address0 : Nat) : Option Nat :=
  let address := address0 &&& 0x3fff
  match m.read_byte_from_ppu address with
  | none => none
  | some (cartridge_read, value) =>
    if cartridge_read then some value
    else if 0x2000 ≤ address ∧ address ≤ 0x3eff then
      let name_table_address := address &&& 0xfff
      if m.rom_header.has_vertical_mirroring then
        if name_table_address ≤ 0x3ff then some (p.name_tables 0 (name_table_address &&& 0x3ff))
        else if name_table_address ≤ 0x7ff then some (p.name_tables 1 (name_table_address &&& 0x3ff))
        else if name_table_address ≤ 0xbff then some (p.name_tables 0 (name_table_address &&& 0x3ff))
        else some (p.name_tables 1 (name_table_address &&& 0x3ff))
      else
        if name_table_address ≤ 0x3ff then some (p.name_tables 0 (name_table_address &&& 0x3ff))
        else if name_table_address ≤ 0x7ff then some (p.name_tables 0 (name_table_address &&& 0x3ff))
        else if name_table_address ≤ 0xbff then some (p.name_tables 1 (name_table_address &&& 0x3ff))
        else some (p.name_tables 1 (name_table_address &&& 0x3ff))
    else if 0x3f00 ≤ address ∧ address ≤ 0x3fff then
      let palette_address := address &&& 0x1f
      let palette_address :=
        if palette_address = 0x10 then 0x0
        else if palette_address = 0x14 then 0x4
        else if palette_address = 0x18 then 0x8
        else if palette_address = 0x1c then 0xc
        else palette_address
      let colour_mask := if p.ppu_mask &&& GREYSCALE ≠ 0 then 0x30 else 0x3f
      some (p.palette palette_address &&& colour_mask)
    else none

/-- Ppu::write_byte_from_ppu (src/ppu.rs:456-506): internal PPU address
space write. -/
def Ppu.write_byte_from_ppu (p : Ppu) (m : Memory) (address0 value : Nat) :
    Option (Ppu × Memory) :=
  let address := address0 &&& 0x3fff
  match m.write_byte_from_ppu address value with
  | none => none
  | some (handled, m) =>
    if handled then some (p, m)
    else if 0x2000 ≤ address ∧ address ≤ 0x3eff then
      let name_table_address := address &&& 0xfff
      let bank :=
        if m.rom_header.has_vertical_mirroring then
          if name_table_address ≤ 0x3ff then 0
          else if name_table_address ≤ 0x7ff then 1
          else if name_table_address ≤ 0xbff then 0
          else 1
        else
          if name_table_address ≤ 0x3ff then 0
          else if name_table_address ≤ 0x7ff then 0
          else if name_table_address ≤ 0xbff then 1
          else 1
      some ({ p with name_tables := fun b i =>
        if b = bank ∧ i = (name_table_address &&& 0x3ff) then value
        else p.name_tables b i }, m)
    else if 0x3f00 ≤ address ∧ address ≤ 0x3fff then
      let palette_address := address &&& 0x1f
      let palette_address :=
        if palette_address = 0x10 then 0x0
        else if palette_address = 0x14 then 0x4
        else if palette_address = 0x18 then 0x8
        else if palette_address = 0x1c then 0xc
        else palette_address
      some ({ p with palette := fun i =>
        if i = palette_address then value else p.palette i }, m)
    else none

/-- Ppu::read_byte_from_cpu (src/ppu.rs:265-312): the CPU-facing PPU
register read at `0x2000-0x2007`. Returns the byte and the updated PPU;
the memory is only read, never written, on this path. `none` models the
final `panic!` and any panic inside `read_byte_from_ppu`. Note the
source's `debugger` handling at 0x2007 (src/ppu.rs:306-307): the `+= 32`
branch fires only when the VRAM-increment bit is set AND `debugger` is
true, and the `+= 1` branch fires whenever `debugger` is false. -/
def Ppu.read_byte_from_cpu (p : Ppu) (m : Memory) (address : Nat) (debugger : Bool) :
    Option (Nat × Ppu) :=
  if address = 0x2000 then some (0, p)
  else if address = 0x2001 then some (0, p)
  else if address = 0x2002 then
    let old_status := p.ppu_status
    some (old_status, { p with ppu_status := setBits p.ppu_status V_BLANK false,
                               address_latch := false })
  else if address = 0x2003 then some (0, p)
  else if address = 0x2004 then some (p.object_attribute_memory p.oam_address, p)
  else if address = 0x2005 then some (0, p)
  else if address = 0x2006 then some (0, p)
  else if address = 0x2007 then
    match p.read_byte_from_ppu m p.ppu_address with
    | none => none
    | some fresh =>
      let data := p.data_buffer
      let data := if p.ppu_address ≥ 0x3f00 then fresh else data
      let p := { p with data_buffer := fresh }
      let p :=
        if p.ppu_control &&& VRAM_ADDR_INCREMENT ≠ 0 ∧ debugger then
          { p with ppu_address := (p.ppu_address + 32) % 65536 }
        else if ¬ debugger then
          { p with ppu_address := (p.ppu_address + 1) % 65536 }
        else p
      some (data, p)
  else none

/-- Ppu::write_byte_from_cpu (src/ppu.rs:314-398): the CPU-facing PPU
register write at `0x2000-0x2007`. `none` models the final `panic!`; note
the source's `0x2004` arm performs the OAM write but does NOT return, so
it falls through to the panic. -/
def Ppu.write_byte_from_cpu (p : Ppu) (m : Memory) (address value : Nat) :
    Option (Ppu × Memory) :=
  if address = 0x2000 then
    let p := { p with ppu_control := value }
    let loopy := LoopyRegister.fromValue p.table_ram_address
    let loopy := { loopy with
      name_table_x := if p.ppu_control &&& NAMETABLE_ADDR1 ≠ 0 then 1 else 0,
      name_table_y := if p.ppu_control &&& NAMETABLE_ADDR2 ≠ 0 then 1 else 0 }
    some ({ p with table_ram_address := loopy.bits }, m)
  else if address = 0x2001 then some ({ p with ppu_mask := value }, m)
  else if address = 0x2003 then some ({ p with oam_address := value }, m)
  else if address = 0x2004 then
    -- src/ppu.rs:338 assigns into OAM but has no `return`, so control
    -- falls through every later `if` and reaches the `panic!`.
    none
  else if address = 0x2005 then
    let p :=
      if p.address_latch = false then
        let p := { p with fine_x := value &&& 0x7 }
        let loopy := LoopyRegister.fromValue p.table_ram_address
        let loopy := { loopy with coarse_x := value >>> 3 }
        { p with table_ram_address := loopy.bits }
      else
        let loopy := LoopyRegister.fromValue p.table_ram_address
        let loopy := { loopy with fine_y := value &&& 0x7, coarse_y := value >>> 3 }
        { p with table_ram_address := loopy.bits }
    some ({ p with address_latch := ¬ p.address_latch }, m)
  else if address = 0x2006 then
    let p :=
      if p.address_latch = false then
        { p with table_ram_address := ((value &&& 0x3f) <<< 8) ||| (p.table_ram_address &&& 0xff) }
      else
        let t := (p.table_ram_address &&& 0xff00) ||| value
        { p with table_ram_address := t, ppu_address := t }
    some ({ p with address_latch := ¬ p.address_latch }, m)
  else if address = 0x2007 then
    match p.write_byte_from_ppu m p.ppu_address value with
    | none => none
    | some (p, m) =>
      let p :=
        if p.ppu_control &&& VRAM_ADDR_INCREMENT ≠ 0 then
          { p with ppu_address := (p.ppu_address + 32) % 65536 }
        else
          { p with ppu_address := (p.ppu_address + 1) % 65536 }
      some (p, m)
  else none

/-- Memory::read_byte (src/memory.rs:156-202): the CPU-side bus read.
Returns the byte together with the (possibly updated) PPU and memory;
`none` models the final `panic!` ("Could not map memory read", the
BusMapError of the spec) and index panics. -/
def Memory.read_byte (m : Memory) (p : Ppu) (address : Nat) (debugger : Bool) :
    Option (Nat × Ppu × Memory) :=
  if address ≤ 0x1fff then some (m.ram (address &&& 0x7ff), p, m)
  else if 0x2000 ≤ address ∧ address ≤ 0x2007 then
    match p.read_byte_from_cpu m address debugger with
    | none => none
    | some (value, p) => some (value, p, m)
  else if address = 0x4016 ∨ address = 0x4017 then
    let id := address &&& 1
    let value := m.internal_controller id &&& 0x80 ≠ 0
    let m := { m with internal_controller := fun i =>
      if i = id then (m.internal_controller id <<< 1) % 256 else m.internal_controller i }
    some (if value then 1 else 0, p, m)
  else if 0x4000 ≤ address ∧ address ≤ 0x401f then some (0, p, m)
  else if 0x4020 ≤ address then
    if 0x8000 ≤ address ∧ address ≤ 0xbfff then
      if address - 0x8000 < m.pgr_len then some (m.pgr_rom (address - 0x8000), p, m) else none
    else if 0xc000 ≤ address ∧ m.rom_header.pgr_size = 0x4000 then
      if address - 0xc000 < m.pgr_len then some (m.pgr_rom (address - 0xc000), p, m) else none
    else if 0xc000 ≤ address ∧ m.rom_header.pgr_size = 0x8000 then
      if address - 0x8000 < m.pgr_len then some (m.pgr_rom (address - 0x8000), p, m) else none
    else if debugger then some (0, p, m)
    else none
  else none

/-- Memory::read_word (src/memory.rs:204-209): reads the HIGH byte at
`address + 1` (16-bit wrapping) first, then the low byte at `address`. -/
def Memory.read_word (m : Memory) (p : Ppu) (address : Nat) (debugger : Bool) :
    Option (Nat × Ppu × Memory) :=
  match m.read_byte p ((address + 1) % 65536) debugger with
  | none => none
  | some (high, p, m) =>
    match m.read_byte p address debugger with
    | none => none
    | some (low, p, m) => some ((high <<< 8) ||| low, p, m)

/-- Memory::read_word_from_first_page (src/memory.rs:216-221): as
`read_word` but the address is 8-bit, so `address + 1` wraps mod 256. -/
def Memory.read_word_from_first_page (m : Memory) (p : Ppu) (address : Nat) (debugger : Bool) :
    Option (Nat × Ppu × Memory) :=
  match m.read_byte p ((address + 1) % 256) debugger with
  | none => none
  | some (high, p, m) =>
    match m.read_byte p address debugger with
    | none => none
    | some (low, p, m) => some ((high <<< 8) ||| low, p, m)

/-- Memory::write_byte (src/memory.rs:223-275): the CPU-side bus write.
Note that only `address <= 0x7ff` reaches the RAM (the source has no arm
for the RAM mirrors 0x0800-0x1fff, which therefore hit the `panic!`),
and that `0x4014` / `0x4016` / `0x4017` fall through into the
`0x4000-0x401f` range return. -/
def Memory.write_byte (m : Memory) (p : Ppu) (address value : Nat) :
    Option (Ppu × Memory) :=
  if address ≤ 0x7ff then
    some (p, { m with ram := fun i => if i = address then value else m.ram i })
  else if 0x2000 ≤ address ∧ address ≤ 0x2007 then
    p.write_byte_from_cpu m address value
  else
    let m :=
      if address = 0x4014 then
        { m with dma_page := value, dma_address := 0, dma_happening := true }
      else m
    let m :=
      if address = 0x4016 ∨ address = 0x4017 then
        let id := address &&& 1
        { m with internal_controller := fun i =>
          if i = id then m.controller id else m.internal_controller i }
      else m
    if 0x4000 ≤ address ∧ address ≤ 0x401f then some (p, m)
    else if 0x4020 ≤ address then
      if 0x8000 ≤ address ∧ address ≤ 0xbfff then
        if address - 0x8000 < m.pgr_len then
          some (p, { m with pgr_rom := fun i =>
            if i = address - 0x8000 then value else m.pgr_rom i })
        else none
      else if 0xc000 ≤ address ∧ m.rom_header.pgr_size = 0x4000 then
        if address - 0xc000 < m.pgr_len then
          some (p, { m with pgr_rom := fun i =>
            if i = address - 0xc000 then value else m.pgr_rom i })
        else none
      else if 0xc000 ≤ address ∧ m.rom_header.pgr_size = 0x8000 then
        if address - 0x8000 < m.pgr_len then
          some (p, { m with pgr_rom := fun i =>
            if i = address - 0x8000 then value else m.pgr_rom i })
        else none
      else none
    else none

/-- Memory::pages_differ (src/memory.rs:277-282). -/
def Memory.pages_differ (first_address second_address : Nat) : Bool :=
  first_address &&& 0xff00 ≠ second_address &&& 0xff00

/-- ProcessorState flag masks (src/cpu.rs:10-24). -/
def CARRY : Nat := 0b1
def ZERO : Nat := 0b10
def DISABLE_INTERRUPTS : Nat := 0b100
def DECIMAL : Nat := 0b1000
def B_FLAG : Nat := 0b10000
def U_FLAG : Nat := 0b100000
def OVERFLOW : Nat := 0b1000000
def NEGATIVE : Nat := 0b10000000

/-- Cpu (src/cpu.rs:26-35). -/
structure Cpu where
  pc : Nat
  sp : Nat
  a : Nat
  x : Nat
  y : Nat
  flags : Nat
  cycles : Nat
deriving Repr, DecidableEq

/-- Operand (src/cpu.rs:37-41). -/
structure Operand where
  data : Nat
  additional_cycle : Bool
deriving Repr, DecidableEq

/-- AddressingMode (src/opcodes.rs:1-17). -/
inductive AddressingMode where
  | Implied | Accumulator | Immediate | Absolute | AbsoluteX | AbsoluteY
  | ZeroPage | ZeroPageX | ZeroPageY | Relative | Indirect | IndirectX | IndirectY
deriving Repr, DecidableEq

/-- Operation (src/opcodes.rs:19-117). -/
inductive Operation where
  | ADC | SBC | AND | EOR | ORA
  | ASL | LSR | ROL | ROR
  | INC | DEC | INX | INY | DEX | DEY
  | LDA | LDX | LDY | STA | STX | STY
  | SEC | SED | SEI | CLC | CLD | CLI | CLV
  | CMP | CPX | CPY
  | JMP | JSR | RTI | RTS
  | BCC | BCS | BEQ | BMI | BNE | BPL | BVC | BVS
  | PHA | PHP | PLA | PLP
  | TAX | TAY | TSX | TXA | TYA | TXS
  | BRK | BIT | NOP
  | XXX
  | LAX | SAX | IGN | SKB | DCP | ISC | RLA | RRA | SLO | SRE
  | ALR | ANC | ARR | AXS
deriving Repr, DecidableEq

/-- operation_requires_fetched_argument (src/opcodes.rs:119-158). -/
def operation_requires_fetched_argument (operation : Operation) : Bool :=
  match operation with
  | .ADC | .SBC | .AND | .EOR | .ORA
  | .ASL | .LSR | .ROL | .ROR
  | .INC | .DEC
  | .LDA | .LDX | .LDY
  | .CMP | .CPX | .CPY
  | .BIT
  | .LAX | .SAX | .DCP | .ISC | .RLA | .RRA | .SLO | .SRE
  | .SKB | .IGN | .ALR | .ANC | .ARR | .AXS => true
  | _ => false

/-- Instruction (src/opcodes.rs:160): mnemonic, operation, addressing
mode and base cycle count. -/
structure Instruction where
  name : String
  operation : Operation
  mode : AddressingMode
  base_cycles : Nat
deriving Repr, DecidableEq

/-- Cpu::from_memory (src/cpu.rs:45-64): the reset-state constructor.
Flags are IntDisable | B | U = 0x34 (the source asserts this), sp 0xfd,
cycles 7, pc from the reset vector at 0xfffc. -/
def Cpu.from_memory (p : Ppu) (m : Memory) : Option (Cpu × Ppu × Memory) :=
  match m.read_word p 0xfffc false with
  | none => none
  | some (pc, p, m) =>
    some ({ pc := pc, sp := 0xfd, a := 0, x := 0, y := 0, flags := 0x34, cycles := 7 }, p, m)

/-- Cpu::push (src/cpu.rs:678-683): write to `0x100 + sp`, then `sp -= 1`
(u8 arithmetic, wrapping in the release profile). -/
def Cpu.push (c : Cpu) (p : Ppu) (m : Memory) (value : Nat) : Option (Cpu × Ppu × Memory) :=
  match Memory.write_byte m p (0x100 + c.sp) value with
  | none => none
  | some (p, m) => some ({ c with sp := (c.sp + 255) % 256 }, p, m)

/-- Cpu::pop (src/cpu.rs:685-689): `sp += 1` (u8 wrapping), then read
`0x100 + sp`. -/
def Cpu.pop (c : Cpu) (p : Ppu) (m : Memory) : Option (Nat × Cpu × Ppu × Memory) :=
  let sp := (c.sp + 1) % 256
  match Memory.read_byte m p (0x100 + sp) false with
  | none => none
  | some (value, p, m) => some (value, { c with sp := sp }, p, m)

/-- Cpu::read_byte_for_operand (src/cpu.rs:93-99): read the byte at `pc`
and advance `pc` by one (u16 wrapping). -/
def Cpu.read_byte_for_operand (c : Cpu) (p : Ppu) (m : Memory) (debugger : Bool) :
    Option (Nat × Cpu × Ppu × Memory) :=
  match m.read_byte p c.pc debugger with
  | none => none
  | some (data, p, m) => some (data, { c with pc := (c.pc + 1) % 65536 }, p, m)

/-- Cpu::read_word_for_operand (src/cpu.rs:101-107): two operand bytes,
low then high. -/
def Cpu.read_word_for_operand (c : Cpu) (p : Ppu) (m : Memory) (debugger : Bool) :
    Option (Nat × Cpu × Ppu × Memory) :=
  match c.read_byte_for_operand p m debugger with
  | none => none
  | some (low, c, p, m) =>
    match c.read_byte_for_operand p m debugger with
    | none => none
    | some (high, c, p, m) => some ((high <<< 8) ||| low, c, p, m)

/-- Cpu::fetch_operand (src/cpu.rs:121-208): addressing-mode resolution,
producing the effective address (or raw value) and the page-cross flag.
The Indirect arm reproduces the hardware page-wrap bug: when the
pointer's low byte is 0xff, the high byte of the effective address is
read from `pointer & 0xff00` instead of `pointer + 1`. -/
def Cpu.fetch_operand (c : Cpu) (p : Ppu) (m : Memory) (addressing_mode : AddressingMode)
    (debugger : Bool) : Option (Operand × Cpu × Ppu × Memory) :=
  match addressing_mode with
  | .Implied => some ({ data := 0, additional_cycle := false }, c, p, m)
  | .Accumulator => some ({ data := c.a, additional_cycle := false }, c, p, m)
  | .Immediate =>
    match c.read_byte_for_operand p m debugger with
    | none => none
    | some (data, c, p, m) => some ({ data := data, additional_cycle := false }, c, p, m)
  | .Absolute =>
    match c.read_word_for_operand p m debugger with
    | none => none
    | some (address, c, p, m) => some ({ data := address, additional_cycle := false }, c, p, m)
  | .AbsoluteX | .AbsoluteY =>
    let register := if addressing_mode = .AbsoluteX then c.x else c.y
    match c.read_word_for_operand p m debugger with
    | none => none
    | some (base_address, c, p, m) =>
      let address := (base_address + register) % 65536
      some ({ data := address,
              additional_cycle := Memory.pages_differ base_address address }, c, p, m)
  | .ZeroPage =>
    match c.read_byte_for_operand p m debugger with
    | none => none
    | some (address, c, p, m) => some ({ data := address, additional_cycle := false }, c, p, m)
  | .ZeroPageX | .ZeroPageY =>
    let register := if addressing_mode = .ZeroPageX then c.x else c.y
    match c.read_byte_for_operand p m debugger with
    | none => none
    | some (byte, c, p, m) =>
      some ({ data := (byte + register) % 256, additional_cycle := false }, c, p, m)
  | .Relative =>
    match c.read_byte_for_operand p m debugger with
    | none => none
    | some (byte, c, p, m) =>
      -- `byte as i8 as u16` sign-extends: 0..127 stays, 128..255 becomes 0xff00 | byte.
      let opcode_offset := if byte < 128 then byte else 0xff00 ||| byte
      let address := (c.pc + opcode_offset) % 65536
      some ({ data := address, additional_cycle := false }, c, p, m)
  | .Indirect =>
    match c.read_word_for_operand p m debugger with
    | none => none
    | some (original_address, c, p, m) =>
      match m.read_byte p original_address debugger with
      | none => none
      | some (lower_byte, p, m) =>
        if original_address &&& 0xff = 0xff then
          match m.read_byte p (original_address &&& 0xff00) debugger with
          | none => none
          | some (upper_byte, p, m) =>
            some ({ data := (upper_byte <<< 8) ||| lower_byte,
                    additional_cycle := false }, c, p, m)
        else
          match m.read_byte p (original_address + 1) debugger with
          | none => none
          | some (upper_byte, p, m) =>
            some ({ data := (upper_byte <<< 8) ||| lower_byte,
                    additional_cycle := false }, c, p, m)
  | .IndirectX =>
    match c.read_byte_for_operand p m debugger with
    | none => none
    | some (byte, c, p, m) =>
      let address := (byte + c.x) % 256
      match m.read_word_from_first_page p address debugger with
      | none => none
      | some (value, p, m) => some ({ data := value, additional_cycle := false }, c, p, m)
  | .IndirectY =>
    match c.read_byte_for_operand p m debugger with
    | none => none
    | some (address, c, p, m) =>
      match m.read_word_from_first_page p address debugger with
      | none => none
      | some (value, p, m) =>
        let page_crossed := Memory.pages_differ value ((value + c.y) % 65536)
        some ({ data := (value + c.y) % 65536, additional_cycle := page_crossed }, c, p, m)

/-- Cpu::fetch_args (src/cpu.rs:210-221): the argument byte for
operations that consume one. -/
def Cpu.fetch_args (_c : Cpu) (p : Ppu) (m : Memory) (addressing_mode : AddressingMode)
    (operand_data : Nat) : Option (Nat × Ppu × Memory) :=
  match addressing_mode with
  | .Implied => some (0, p, m)
  | .Accumulator | .Immediate => some (operand_data % 256, p, m)
  | _ => m.read_byte p operand_data false

/-- Cpu::set_carry_flag (src/cpu.rs:658-661). -/
def Cpu.set_carry_flag (c : Cpu) (value : Bool) : Cpu :=
  { c with flags := setBits c.flags CARRY value }

/-- Cpu::set_zero_flag (src/cpu.rs:663-666): set iff the byte is zero. -/
def Cpu.set_zero_flag (c : Cpu) (value : Nat) : Cpu :=
  { c with flags := setBits c.flags ZERO (value == 0) }

/-- Cpu::set_overflow_flag (src/cpu.rs:668-671). -/
def Cpu.set_overflow_flag (c : Cpu) (value : Bool) : Cpu :=
  { c with flags := setBits c.flags OVERFLOW value }

/-- Cpu::set_negative_flag (src/cpu.rs:673-676): set iff bit 7 of the byte. -/
def Cpu.set_negative_flag (c : Cpu) (value : Nat) : Cpu :=
  { c with flags := setBits c.flags NEGATIVE (decide (value &&& 0b10000000 ≠ 0)) }

/-- Cpu::compare (src/cpu.rs:623-630); the returned `true` is the
has-extra-cycles flag of the CMP/CPX/CPY arms. -/
def Cpu.compare (c : Cpu) (register argument : Nat) : Cpu × Bool :=
  let result := sub8 register argument
  let c := c.set_carry_flag (decide (register ≥ argument))
  let c := c.set_zero_flag (sub8 register argument)
  let c := c.set_negative_flag result
  (c, true)

/-- Cpu::branch (src/cpu.rs:632-642): when the condition holds, add one
cycle (two on a page cross) and jump; the arm reports no extra cycles. -/
def Cpu.branch (c : Cpu) (location : Nat) (condition : Bool) : Cpu :=
  if condition then
    let c :=
      if Memory.pages_differ c.pc location then { c with cycles := (c.cycles + 2) % 4294967296 }
      else { c with cycles := (c.cycles + 1) % 4294967296 }
    { c with pc := location }
  else c

/-- Cpu::transfer_from_accumulator (src/cpu.rs:644-649). -/
def Cpu.transfer_from_accumulator (c : Cpu) : Cpu × Nat :=
  ((c.set_zero_flag c.a).set_negative_flag c.a, c.a)

/-- Cpu::transfer_to_register (src/cpu.rs:651-656). -/
def Cpu.transfer_to_register (c : Cpu) (register : Nat) : Cpu × Nat :=
  ((c.set_zero_flag register).set_negative_flag register, register)

/-- The operation dispatch of Cpu::execute (the `match operation` block,
src/cpu.rs:239-609), one arm per Operation, returning the
`has_extra_cycles` flag together with the updated machine. `none` models
the `panic!` of the BRK arm and of the catch-all arm (XXX, ALR, ANC,
ARR, AXS are not implemented by the source). -/
def Cpu.execute_operation (c : Cpu) (p : Ppu) (m : Memory) (operation : Operation)
    (mode : AddressingMode) (operand : Operand) (argument : Nat) :
    Option (Bool × Cpu × Ppu × Memory) :=
  match operation with
  | .ADC =>
    let value := c.a + argument + (c.flags &&& CARRY)
    let c2 := c.set_carry_flag (decide (value > 255))
    let c2 := c2.set_zero_flag (value % 256)
    let c2 := c2.set_overflow_flag (decide ((((c.a ^^^ argument) ^^^ 0xffff) &&& (c.a ^^^ value)) &&& 0x80 ≠ 0))
    let c2 := c2.set_negative_flag (value % 256)
    some (true, { c2 with a := value % 256 }, p, m)
  | .SBC =>
    let value := argument ^^^ 0x00ff
    let temp := c.a + value + (c.flags &&& CARRY)
    let c2 := c.set_carry_flag (decide (temp &&& 0xff00 ≠ 0))
    let c2 := c2.set_zero_flag (temp % 256)
    let c2 := c2.set_overflow_flag (decide (((temp ^^^ c.a) &&& (temp ^^^ value)) &&& 0x80 ≠ 0))
    let c2 := c2.set_negative_flag (temp % 256)
    some (true, { c2 with a := temp % 256 }, p, m)
  | .AND =>
    let c := { c with a := c.a &&& (argument % 256) }
    some (true, (c.set_zero_flag c.a).set_negative_flag c.a, p, m)
  | .EOR =>
    let c := { c with a := c.a ^^^ (argument % 256) }
    some (true, (c.set_zero_flag c.a).set_negative_flag c.a, p, m)
  | .ORA =>
    let c := { c with a := c.a ||| (argument % 256) }
    some (true, (c.set_zero_flag c.a).set_negative_flag c.a, p, m)
  | .ASL =>
    let result := (argument <<< 1) % 256
    let c := c.set_zero_flag result
    let c := c.set_negative_flag result
    let c := c.set_carry_flag (decide (argument &&& 0x80 ≠ 0))
    if mode = AddressingMode.Accumulator then some (false, { c with a := result }, p, m)
    else
      match Memory.write_byte m p operand.data result with
      | none => none
      | some (p, m) => some (false, c, p, m)
  | .LSR =>
    let result := argument >>> 1
    let c := c.set_zero_flag result
    let c := { c with flags := setBits c.flags NEGATIVE false }
    let c := c.set_carry_flag (decide (argument &&& 1 ≠ 0))
    if mode = AddressingMode.Accumulator then some (false, { c with a := result }, p, m)
    else
      match Memory.write_byte m p operand.data result with
      | none => none
      | some (p, m) => some (false, c, p, m)
  | .ROL =>
    let result := ((argument <<< 1) % 256) ||| (if c.flags &&& CARRY ≠ 0 then 1 else 0)
    let c := c.set_zero_flag result
    let c := c.set_negative_flag result
    let c := c.set_carry_flag (decide (argument &&& 0x80 ≠ 0))
    if mode = AddressingMode.Accumulator then some (false, { c with a := result }, p, m)
    else
      match Memory.write_byte m p operand.data result with
      | none => none
      | some (p, m) => some (false, c, p, m)
  | .ROR =>
    let result := (argument >>> 1) ||| (if c.flags &&& CARRY ≠ 0 then 0x80 else 0)
    let c := c.set_zero_flag result
    let c := { c with flags := setBits c.flags NEGATIVE (decide (c.flags &&& CARRY ≠ 0)) }
    let c := c.set_carry_flag (decide (argument &&& 0b1 ≠ 0))
    if mode = AddressingMode.Accumulator then some (false, { c with a := result }, p, m)
    else
      match Memory.write_byte m p operand.data result with
      | none => none
      | some (p, m) => some (false, c, p, m)
  | .INC =>
    let result := (argument + 1) % 256
    let c := (c.set_zero_flag result).set_negative_flag result
    match Memory.write_byte m p operand.data result with
    | none => none
    | some (p, m) => some (false, c, p, m)
  | .DEC =>
    let result := sub8 argument 1
    let c := (c.set_zero_flag result).set_negative_flag result
    match Memory.write_byte m p operand.data result with
    | none => none
    | some (p, m) => some (false, c, p, m)
  | .INX =>
    let result := (c.x + 1) % 256
    some (false, { (c.set_zero_flag result).set_negative_flag result with x := result }, p, m)
  | .INY =>
    let result := (c.y + 1) % 256
    some (false, { (c.set_zero_flag result).set_negative_flag result with y := result }, p, m)
  | .DEX =>
    let result := sub8 c.x 1
    some (false, { (c.set_zero_flag result).set_negative_flag result with x := result }, p, m)
  | .DEY =>
    let result := sub8 c.y 1
    some (false, { (c.set_zero_flag result).set_negative_flag result with y := result }, p, m)
  | .LDA =>
    let c := { c with a := argument % 256 }
    some (true, (c.set_negative_flag c.a).set_zero_flag c.a, p, m)
  | .LDX =>
    let c := { c with x := argument % 256 }
    some (true, (c.set_negative_flag c.x).set_zero_flag c.x, p, m)
  | .LDY =>
    let c := { c with y := argument % 256 }
    some (true, (c.set_negative_flag c.y).set_zero_flag c.y, p, m)
  | .STA =>
    match Memory.write_byte m p operand.data c.a with
    | none => none
    | some (p, m) => some (false, c, p, m)
  | .STX =>
    match Memory.write_byte m p operand.data c.x with
    | none => none
    | some (p, m) => some (false, c, p, m)
  | .STY =>
    match Memory.write_byte m p operand.data c.y with
    | none => none
    | some (p, m) => some (false, c, p, m)
  | .SEC => some (false, { c with flags := setBits c.flags CARRY true }, p, m)
  | .SED => some (false, { c with flags := setBits c.flags DECIMAL true }, p, m)
  | .SEI => some (false, { c with flags := setBits c.flags DISABLE_INTERRUPTS true }, p, m)
  | .CLC => some (false, { c with flags := setBits c.flags CARRY false }, p, m)
  | .CLD => some (false, { c with flags := setBits c.flags DECIMAL false }, p, m)
  | .CLI => some (false, { c with flags := setBits c.flags DISABLE_INTERRUPTS false }, p, m)
  | .CLV => some (false, { c with flags := setBits c.flags OVERFLOW false }, p, m)
  | .CMP =>
    let r := c.compare c.a argument
    some (r.2, r.1, p, m)
  | .CPX =>
    let r := c.compare c.x argument
    some (r.2, r.1, p, m)
  | .CPY =>
    let r := c.compare c.y argument
    some (r.2, r.1, p, m)
  | .JMP => some (false, { c with pc := operand.data }, p, m)
  | .JSR => do
    let c := { c with pc := (c.pc + 65535) % 65536 }
    let (c, p, m) ← c.push p m ((c.pc >>> 8) % 256)
    let (c, p, m) ← c.push p m (c.pc &&& 0xff)
    pure (false, { c with pc := operand.data }, p, m)
  | .RTI => do
    let (value, c, p, m) ← c.pop p m
    let c := { c with flags := value }
    let (low, c, p, m) ← c.pop p m
    let (high, c, p, m) ← c.pop p m
    pure (false, { c with pc := low ||| (high <<< 8) }, p, m)
  | .RTS => do
    let (low, c, p, m) ← c.pop p m
    let (high, c, p, m) ← c.pop p m
    let c := { c with pc := low ||| (high <<< 8) }
    pure (false, { c with pc := (c.pc + 1) % 65536 }, p, m)
  | .BCC => some (false, c.branch operand.data (decide (c.flags &&& CARRY = 0)), p, m)
  | .BCS => some (false, c.branch operand.data (decide (c.flags &&& CARRY ≠ 0)), p, m)
  | .BEQ => some (false, c.branch operand.data (decide (c.flags &&& ZERO ≠ 0)), p, m)
  | .BMI => some (false, c.branch operand.data (decide (c.flags &&& NEGATIVE ≠ 0)), p, m)
  | .BNE => some (false, c.branch operand.data (decide (c.flags &&& ZERO = 0)), p, m)
  | .BPL => some (false, c.branch operand.data (decide (c.flags &&& NEGATIVE = 0)), p, m)
  | .BVC => some (false, c.branch operand.data (decide (c.flags &&& OVERFLOW = 0)), p, m)
  | .BVS => some (false, c.branch operand.data (decide (c.flags &&& OVERFLOW ≠ 0)), p, m)
  | .PHA => do
    let (c, p, m) ← c.push p m c.a
    pure (false, c, p, m)
  | .PHP => do
    let (c, p, m) ← c.push p m (c.flags ||| B_FLAG ||| U_FLAG)
    pure (false, c, p, m)
  | .PLA => do
    let (value, c, p, m) ← c.pop p m
    let c := { c with a := value }
    pure (false, (c.set_zero_flag c.a).set_negative_flag c.a, p, m)
  | .PLP => do
    let (value, c, p, m) ← c.pop p m
    pure (false, { c with flags := value }, p, m)
  | .TAX =>
    let r := c.transfer_from_accumulator
    some (false, { r.1 with x := r.2 }, p, m)
  | .TAY =>
    let r := c.transfer_from_accumulator
    some (false, { r.1 with y := r.2 }, p, m)
  | .TSX =>
    let r := c.transfer_to_register c.sp
    some (false, { r.1 with x := r.2 }, p, m)
  | .TXA =>
    let r := c.transfer_to_register c.x
    some (false, { r.1 with a := r.2 }, p, m)
  | .TYA =>
    let r := c.transfer_to_register c.y
    some (false, { r.1 with a := r.2 }, p, m)
  | .TXS => some (false, { c with sp := c.x }, p, m)
  | .BIT =>
    let result := c.a &&& argument
    let c := c.set_zero_flag result
    let c := c.set_overflow_flag (decide (argument &&& (1 <<< 6) ≠ 0))
    let c := c.set_negative_flag argument
    some (false, c, p, m)
  | .NOP => some (false, c, p, m)
  | .LAX =>
    let c := (c.set_zero_flag argument).set_negative_flag argument
    some (true, { c with a := argument, x := argument }, p, m)
  | .SAX =>
    match Memory.write_byte m p operand.data (c.a &&& c.x) with
    | none => none
    | some (p, m) => some (false, c, p, m)
  | .IGN => some (true, c, p, m)
  | .SKB => some (false, c, p, m)
  | .DCP => do
    let dec_value := sub8 argument 1
    let (p, m) ← Memory.write_byte m p operand.data dec_value
    let cmp_value := sub8 c.a dec_value
    let c2 := c.set_carry_flag (decide (c.a ≥ dec_value))
    let c2 := c2.set_zero_flag cmp_value
    let c2 := c2.set_negative_flag cmp_value
    pure (false, c2, p, m)
  | .ISC => do
    let inc_value := (argument + 1) % 256
    let (p, m) ← Memory.write_byte m p operand.data inc_value
    let sbc_value_one := sub8 c.a inc_value
    let sbc_carry_one := decide (c.a < inc_value)
    let borrow := if c.flags &&& CARRY ≠ 0 then 0 else 1
    let sbc_value_two := sub8 sbc_value_one borrow
    let sbc_carry_two := decide (sbc_value_one < borrow)
    let c2 := c.set_carry_flag (!(sbc_carry_one || sbc_carry_two))
    let c2 := c2.set_zero_flag sbc_value_two
    let c2 := c2.set_negative_flag sbc_value_two
    let c2 := c2.set_overflow_flag
      (decide ((c.a ^^^ inc_value) &&& 0x80 = 0x80) && decide ((c.a ^^^ sbc_value_two) &&& 0x80 = 0x80))
    pure (false, { c2 with a := sbc_value_two }, p, m)
  | .RLA => do
    let rol_value := ((argument <<< 1) % 256) ||| (if c.flags &&& CARRY ≠ 0 then 1 else 0)
    let c := c.set_carry_flag (decide (argument &&& 0x80 ≠ 0))
    let (p, m) ← Memory.write_byte m p operand.data rol_value
    let and_value := c.a &&& rol_value
    let c := c.set_zero_flag and_value
    let c := c.set_negative_flag and_value
    pure (false, { c with a := and_value }, p, m)
  | .RRA => do
    let ror_value := (argument >>> 1) ||| (if c.flags &&& CARRY ≠ 0 then 0x80 else 0x00)
    let c := c.set_carry_flag (decide (argument &&& 1 = 1))
    let (p, m) ← Memory.write_byte m p operand.data ror_value
    let adc_value := c.a + ror_value + (if c.flags &&& CARRY ≠ 0 then 1 else 0)
    let c2 := c.set_carry_flag (decide (adc_value > 255))
    let c2 := c2.set_zero_flag (adc_value % 256)
    let c2 := c2.set_overflow_flag
      (decide (((c.a ^^^ adc_value) &&& (ror_value ^^^ adc_value)) &&& 0x80 = 0x80))
    let c2 := c2.set_negative_flag (adc_value % 256)
    pure (false, { c2 with a := adc_value % 256 }, p, m)
  | .SLO => do
    let asl_value := (argument <<< 1) % 256
    let c := c.set_carry_flag (decide (argument &&& 0x80 ≠ 0))
    let (p, m) ← Memory.write_byte m p operand.data asl_value
    let ora_value := c.a ||| asl_value
    let c := c.set_zero_flag ora_value
    let c := c.set_negative_flag ora_value
    pure (false, { c with a := ora_value }, p, m)
  | .SRE => do
    let lsr_value := argument >>> 1
    let c := c.set_carry_flag (decide (argument &&& 1 = 1))
    let (p, m) ← Memory.write_byte m p operand.data lsr_value
    let eor_value := c.a ^^^ lsr_value
    let c := c.set_zero_flag eor_value
    let c := c.set_negative_flag eor_value
    pure (false, { c with a := eor_value }, p, m)
  | .BRK => none
  | _ => none

/-- Row 0x0_ of the INSTRUCTIONS table (src/opcodes.rs:162-435). -/
def INSTRUCTIONS_row0 : List Instruction :=
[  ⟨"BRK", .BRK, .Immediate, 7⟩,
  ⟨"ORA", .ORA, .IndirectX, 6⟩,
  ⟨"???", .XXX, .Implied, 2⟩,
  ⟨"SLO", .SLO, .IndirectX, 8⟩,
  ⟨"IGN", .IGN, .ZeroPage, 3⟩,
  ⟨"ORA", .ORA, .ZeroPage, 3⟩,
  ⟨"ASL", .ASL, .ZeroPage, 5⟩,
  ⟨"SLO", .SLO, .ZeroPage, 5⟩,
  ⟨"PHP", .PHP, .Implied, 3⟩,
  ⟨"ORA", .ORA, .Immediate, 2⟩,
  ⟨"ASL", .ASL, .Accumulator, 2⟩,
  ⟨"ANC", .ANC, .Immediate, 2⟩,
  ⟨"IGN", .IGN, .Absolute, 4⟩,
  ⟨"ORA", .ORA, .Absolute, 4⟩,
  ⟨"ASL", .ASL, .Absolute, 6⟩,
  ⟨"SLO", .SLO, .Absolute, 6⟩]

/-- Row 0x1_ of the INSTRUCTIONS table (src/opcodes.rs:162-435). -/
def INSTRUCTIONS_row1 : List Instruction :=
[  ⟨"BPL", .BPL, .Relative, 2⟩,
  ⟨"ORA", .ORA, .IndirectY, 5⟩,
  ⟨"???", .XXX, .Implied, 2⟩,
  ⟨"SLO", .SLO, .IndirectY, 8⟩,
  ⟨"IGN", .IGN, .ZeroPageX, 4⟩,
  ⟨"ORA", .ORA, .ZeroPageX, 4⟩,
  ⟨"ASL", .ASL, .ZeroPageX, 6⟩,
  ⟨"SLO", .SLO, .ZeroPageX, 6⟩,
  ⟨"CLC", .CLC, .Implied, 2⟩,
  ⟨"ORA", .ORA, .AbsoluteY, 4⟩,
  ⟨"NOP", .NOP, .Implied, 2⟩,
  ⟨"SLO", .SLO, .AbsoluteX, 7⟩,
  ⟨"IGN", .IGN, .AbsoluteX, 4⟩,
  ⟨"ORA", .ORA, .AbsoluteX, 4⟩,
  ⟨"ASL", .ASL, .AbsoluteX, 7⟩,
  ⟨"SLO", .SLO, .AbsoluteX, 7⟩]

/-- Row 0x2_ of the INSTRUCTIONS table (src/opcodes.rs:162-435). -/
def INSTRUCTIONS_row2 : List Instruction :=
[  ⟨"JSR", .JSR, .Absolute, 6⟩,
  ⟨"AND", .AND, .IndirectX, 6⟩,
  ⟨"???", .XXX, .Implied, 2⟩,
  ⟨"RLA", .RLA, .IndirectX, 8⟩,
  ⟨"BIT", .BIT, .ZeroPage, 3⟩,
  ⟨"AND", .AND, .ZeroPage, 3⟩,
  ⟨"ROL", .ROL, .ZeroPage, 5⟩,
  ⟨"RLA", .RLA, .ZeroPage, 5⟩,
  ⟨"PLP", .PLP, .Implied, 4⟩,
  ⟨"AND", .AND, .Immediate, 2⟩,
  ⟨"ROL", .ROL, .Accumulator, 2⟩,
  ⟨"???", .XXX, .Implied, 2⟩,
  ⟨"BIT", .BIT, .Absolute, 4⟩,
  ⟨"AND", .AND, .Absolute, 4⟩,
  ⟨"ROL", .ROL, .Absolute, 6⟩,
  ⟨"RLA", .RLA, .Absolute, 6⟩]

/-- Row 0x3_ of the INSTRUCTIONS table (src/opcodes.rs:162-435). -/
def INSTRUCTIONS_row3 : List Instruction :=
[  ⟨"BMI", .BMI, .Relative, 2⟩,
  ⟨"AND", .AND, .IndirectY, 5⟩,
  ⟨"???", .XXX, .Implied, 2⟩,
  ⟨"RLA", .RLA, .IndirectY, 8⟩,
  ⟨"IGN", .IGN, .ZeroPageX, 4⟩,
  ⟨"AND", .AND, .ZeroPageX, 4⟩,
  ⟨"ROL", .ROL, .ZeroPageX, 6⟩,
  ⟨"RLA", .RLA, .ZeroPageX, 6⟩,
  ⟨"SEC", .SEC, .Implied, 2⟩,
  ⟨"AND", .AND, .AbsoluteY, 4⟩,
  ⟨"NOP", .NOP, .Implied, 2⟩,
  ⟨"RLA", .RLA, .AbsoluteY, 7⟩,
  ⟨"IGN", .IGN, .AbsoluteX, 4⟩,
  ⟨"AND", .AND, .AbsoluteX, 4⟩,
  ⟨"ROL", .ROL, .AbsoluteX, 7⟩,
  ⟨"RLA", .RLA, .AbsoluteX, 7⟩]

/-- Row 0x4_ of the INSTRUCTIONS table (src/opcodes.rs:162-435). -/
def INSTRUCTIONS_row4 : List Instruction :=
[  ⟨"RTI", .RTI, .Implied, 6⟩,
  ⟨"EOR", .EOR, .IndirectX, 6⟩,
  ⟨"???", .XXX, .Implied, 2⟩,
  ⟨"SRE", .SRE, .IndirectX, 8⟩,
  ⟨"IGN", .IGN, .ZeroPage, 3⟩,
  ⟨"EOR", .EOR, .ZeroPage, 3⟩,
  ⟨"LSR", .LSR, .ZeroPage, 5⟩,
  ⟨"SRE", .SRE, .ZeroPage, 5⟩,
  ⟨"PHA", .PHA, .Implied, 3⟩,
  ⟨"EOR", .EOR, .Immediate, 2⟩,
  ⟨"LSR", .LSR, .Accumulator, 2⟩,
  ⟨"ALR", .ALR, .Immediate, 2⟩,
  ⟨"JMP", .JMP, .Absolute, 3⟩,
  ⟨"EOR", .EOR, .Absolute, 4⟩,
  ⟨"LSR", .LSR, .Absolute, 6⟩,
  ⟨"SRE", .SRE, .Absolute, 6⟩]

/-- Row 0x5_ of the INSTRUCTIONS table (src/opcodes.rs:162-435). -/
def INSTRUCTIONS_row5 : List Instruction :=
[  ⟨"BVC", .BVC, .Relative, 2⟩,
  ⟨"EOR", .EOR, .IndirectY, 5⟩,
  ⟨"???", .XXX, .Implied, 2⟩,
  ⟨"SRE", .SRE, .IndirectY, 8⟩,
  ⟨"IGN", .IGN, .ZeroPageX, 4⟩,
  ⟨"EOR", .EOR, .ZeroPageX, 4⟩,
  ⟨"LSR", .LSR, .ZeroPageX, 6⟩,
  ⟨"SRE", .SRE, .ZeroPageX, 6⟩,
  ⟨"CLI", .CLI, .Implied, 2⟩,
  ⟨"EOR", .EOR, .AbsoluteY, 4⟩,
  ⟨"NOP", .NOP, .Implied, 2⟩,
  ⟨"SRE", .SRE, .AbsoluteY, 7⟩,
  ⟨"IGN", .IGN, .AbsoluteX, 4⟩,
  ⟨"EOR", .EOR, .AbsoluteX, 4⟩,
  ⟨"LSR", .LSR, .AbsoluteX, 7⟩,
  ⟨"SRE", .SRE, .AbsoluteX, 7⟩]

/-- Row 0x6_ of the INSTRUCTIONS table (src/opcodes.rs:162-435). -/
def INSTRUCTIONS_row6 : List Instruction :=
[  ⟨"RTS", .RTS, .Implied, 6⟩,
  ⟨"ADC", .ADC, .IndirectX, 6⟩,
  ⟨"???", .XXX, .Implied, 2⟩,
  ⟨"RRA", .RRA, .IndirectX, 8⟩,
  ⟨"IGN", .IGN, .ZeroPage, 3⟩,
  ⟨"ADC", .ADC, .ZeroPage, 3⟩,
  ⟨"ROR", .ROR, .ZeroPage, 5⟩,
  ⟨"RRA", .RRA, .ZeroPage, 5⟩,
  ⟨"PLA", .PLA, .Implied, 4⟩,
  ⟨"ADC", .ADC, .Immediate, 2⟩,
  ⟨"ROR", .ROR, .Accumulator, 2⟩,
  ⟨"ARR", .ARR, .Immediate, 2⟩,
  ⟨"JMP", .JMP, .Indirect, 5⟩,
  ⟨"ADC", .ADC, .Absolute, 4⟩,
  ⟨"ROR", .ROR, .Absolute, 6⟩,
  ⟨"RRA", .RRA, .Absolute, 6⟩]

/-- Row 0x7_ of the INSTRUCTIONS table (src/opcodes.rs:162-435). -/
def INSTRUCTIONS_row7 : List Instruction :=
[  ⟨"BVS", .BVS, .Relative, 2⟩,
  ⟨"ADC", .ADC, .IndirectY, 5⟩,
  ⟨"???", .XXX, .Implied, 2⟩,
  ⟨"RRA", .RRA, .IndirectY, 8⟩,
  ⟨"IGN", .IGN, .ZeroPageX, 4⟩,
  ⟨"ADC", .ADC, .ZeroPageX, 4⟩,
  ⟨"ROR", .ROR, .ZeroPageX, 6⟩,
  ⟨"RRA", .RRA, .ZeroPageX, 6⟩,
  ⟨"SEI", .SEI, .Implied, 2⟩,
  ⟨"ADC", .ADC, .AbsoluteY, 4⟩,
  ⟨"NOP", .NOP, .Implied, 2⟩,
  ⟨"RRA", .RRA, .AbsoluteY, 7⟩,
  ⟨"IGN", .IGN, .AbsoluteX, 4⟩,
  ⟨"ADC", .ADC, .AbsoluteX, 4⟩,
  ⟨"ROR", .ROR, .AbsoluteX, 7⟩,
  ⟨"RRA", .RRA, .AbsoluteX, 7⟩]

/-- Row 0x8_ of the INSTRUCTIONS table (src/opcodes.rs:162-435). -/
def INSTRUCTIONS_row8 : List Instruction :=
[  ⟨"SKB", .SKB, .Immediate, 2⟩,
  ⟨"STA", .STA, .IndirectX, 6⟩,
  ⟨"SKB", .SKB, .Immediate, 2⟩,
  ⟨"SAX", .SAX, .IndirectX, 6⟩,
  ⟨"STY", .STY, .ZeroPage, 3⟩,
  ⟨"STA", .STA, .ZeroPage, 3⟩,
  ⟨"STX", .STX, .ZeroPage, 3⟩,
  ⟨"SAX", .SAX, .ZeroPage, 3⟩,
  ⟨"DEY", .DEY, .Implied, 2⟩,
  ⟨"SKB", .SKB, .Immediate, 2⟩,
  ⟨"TXA", .TXA, .Implied, 2⟩,
  ⟨"???", .XXX, .Implied, 2⟩,
  ⟨"STY", .STY, .Absolute, 4⟩,
  ⟨"STA", .STA, .Absolute, 4⟩,
  ⟨"STX", .STX, .Absolute, 4⟩,
  ⟨"SAX", .SAX, .Absolute, 4⟩]

/-- Row 0x9_ of the INSTRUCTIONS table (src/opcodes.rs:162-435). -/
def INSTRUCTIONS_row9 : List Instruction :=
[  ⟨"BCC", .BCC, .Relative, 2⟩,
  ⟨"STA", .STA, .IndirectY, 6⟩,
  ⟨"???", .XXX, .Implied, 2⟩,
  ⟨"???", .XXX, .Implied, 6⟩,
  ⟨"STY", .STY, .ZeroPageX, 4⟩,
  ⟨"STA", .STA, .ZeroPageX, 4⟩,
  ⟨"STX", .STX, .ZeroPageY, 4⟩,
  ⟨"SAX", .SAX, .ZeroPageY, 4⟩,
  ⟨"TYA", .TYA, .Implied, 2⟩,
  ⟨"STA", .STA, .AbsoluteY, 5⟩,
  ⟨"TXS", .TXS, .Implied, 2⟩,
  ⟨"???", .XXX, .Implied, 5⟩,
  ⟨"???", .XXX, .Implied, 5⟩,
  ⟨"STA", .STA, .AbsoluteX, 5⟩,
  ⟨"???", .XXX, .Implied, 5⟩,
  ⟨"???", .XXX, .Implied, 5⟩]

/-- Row 0xa_ of the INSTRUCTIONS table (src/opcodes.rs:162-435). -/
def INSTRUCTIONS_row10 : List Instruction :=
[  ⟨"LDY", .LDY, .Immediate, 2⟩,
  ⟨"LDA", .LDA, .IndirectX, 6⟩,
  ⟨"LDX", .LDX, .Immediate, 2⟩,
  ⟨"LAX", .LAX, .IndirectX, 6⟩,
  ⟨"LDY", .LDY, .ZeroPage, 3⟩,
  ⟨"LDA", .LDA, .ZeroPage, 3⟩,
  ⟨"LDX", .LDX, .ZeroPage, 3⟩,
  ⟨"LAX", .LAX, .ZeroPage, 3⟩,
  ⟨"TAY", .TAY, .Implied, 2⟩,
  ⟨"LDA", .LDA, .Immediate, 2⟩,
  ⟨"TAX", .TAX, .Implied, 2⟩,
  ⟨"???", .XXX, .Implied, 2⟩,
  ⟨"LDY", .LDY, .Absolute, 4⟩,
  ⟨"LDA", .LDA, .Absolute, 4⟩,
  ⟨"LDX", .LDX, .Absolute, 4⟩,
  ⟨"LAX", .LAX, .Absolute, 4⟩]

/-- Row 0xb_ of the INSTRUCTIONS table (src/opcodes.rs:162-435). -/
def INSTRUCTIONS_row11 : List Instruction :=
[  ⟨"BCS", .BCS, .Relative, 2⟩,
  ⟨"LDA", .LDA, .IndirectY, 5⟩,
  ⟨"???", .XXX, .Implied, 2⟩,
  ⟨"LAX", .LAX, .IndirectY, 5⟩,
  ⟨"LDY", .LDY, .ZeroPageX, 4⟩,
  ⟨"LDA", .LDA, .ZeroPageX, 4⟩,
  ⟨"LDX", .LDX, .ZeroPageY, 4⟩,
  ⟨"LAX", .LAX, .ZeroPageY, 4⟩,
  ⟨"CLV", .CLV, .Implied, 2⟩,
  ⟨"LDA", .LDA, .AbsoluteY, 4⟩,
  ⟨"TSX", .TSX, .Implied, 2⟩,
  ⟨"???", .XXX, .Implied, 4⟩,
  ⟨"LDY", .LDY, .AbsoluteX, 4⟩,
  ⟨"LDA", .LDA, .AbsoluteX, 4⟩,
  ⟨"LDX", .LDX, .AbsoluteY, 4⟩,
  ⟨"LAX", .LAX, .AbsoluteY, 4⟩]

/-- Row 0xc_ of the INSTRUCTIONS table (src/opcodes.rs:162-435). -/
def INSTRUCTIONS_row12 : List Instruction :=
[  ⟨"CPY", .CPY, .Immediate, 2⟩,
  ⟨"CMP", .CMP, .IndirectX, 6⟩,
  ⟨"SKB", .SKB, .Immediate, 2⟩,
  ⟨"DCP", .DCP, .IndirectX, 8⟩,
  ⟨"CPY", .CPY, .ZeroPage, 3⟩,
  ⟨"CMP", .CMP, .ZeroPage, 3⟩,
  ⟨"DEC", .DEC, .ZeroPage, 5⟩,
  ⟨"DCP", .DCP, .ZeroPage, 5⟩,
  ⟨"INY", .INY, .Implied, 2⟩,
  ⟨"CMP", .CMP, .Immediate, 2⟩,
  ⟨"DEX", .DEX, .Implied, 2⟩,
  ⟨"AXS", .AXS, .Immediate, 2⟩,
  ⟨"CPY", .CPY, .Absolute, 4⟩,
  ⟨"CMP", .CMP, .Absolute, 4⟩,
  ⟨"DEC", .DEC, .Absolute, 6⟩,
  ⟨"DCP", .DCP, .Absolute, 6⟩]

/-- Row 0xd_ of the INSTRUCTIONS table (src/opcodes.rs:162-435). -/
def INSTRUCTIONS_row13 : List Instruction :=
[  ⟨"BNE", .BNE, .Relative, 2⟩,
  ⟨"CMP", .CMP, .IndirectY, 5⟩,
  ⟨"???", .XXX, .Implied, 2⟩,
  ⟨"DCP", .DCP, .IndirectY, 8⟩,
  ⟨"IGN", .IGN, .ZeroPageX, 4⟩,
  ⟨"CMP", .CMP, .ZeroPageX, 4⟩,
  ⟨"DEC", .DEC, .ZeroPageX, 6⟩,
  ⟨"DCP", .DCP, .ZeroPageX, 6⟩,
  ⟨"CLD", .CLD, .Implied, 2⟩,
  ⟨"CMP", .CMP, .AbsoluteY, 4⟩,
  ⟨"NOP", .NOP, .Implied, 2⟩,
  ⟨"DCP", .DCP, .AbsoluteY, 7⟩,
  ⟨"IGN", .IGN, .AbsoluteX, 4⟩,
  ⟨"CMP", .CMP, .AbsoluteX, 4⟩,
  ⟨"DEC", .DEC, .AbsoluteX, 7⟩,
  ⟨"DCP", .DCP, .AbsoluteX, 7⟩]

/-- Row 0xe_ of the INSTRUCTIONS table (src/opcodes.rs:162-435). -/
def INSTRUCTIONS_row14 : List Instruction :=
[  ⟨"CPX", .CPX, .Immediate, 2⟩,
  ⟨"SBC", .SBC, .IndirectX, 6⟩,
  ⟨"SKB", .SKB, .Immediate, 2⟩,
  ⟨"ISC", .ISC, .IndirectX, 8⟩,
  ⟨"CPX", .CPX, .ZeroPage, 3⟩,
  ⟨"SBC", .SBC, .ZeroPage, 3⟩,
  ⟨"INC", .INC, .ZeroPage, 5⟩,
  ⟨"ISC", .ISC, .ZeroPage, 5⟩,
  ⟨"INX", .INX, .Implied, 2⟩,
  ⟨"SBC", .SBC, .Immediate, 2⟩,
  ⟨"NOP", .NOP, .Implied, 2⟩,
  ⟨"SBC", .SBC, .Immediate, 2⟩,
  ⟨"CPX", .CPX, .Absolute, 4⟩,
  ⟨"SBC", .SBC, .Absolute, 4⟩,
  ⟨"INC", .INC, .Absolute, 6⟩,
  ⟨"ISC", .ISC, .Absolute, 6⟩]

/-- Row 0xf_ of the INSTRUCTIONS table (src/opcodes.rs:162-435). -/
def INSTRUCTIONS_row15 : List Instruction :=
[  ⟨"BEQ", .BEQ, .Relative, 2⟩,
  ⟨"SBC", .SBC, .IndirectY, 5⟩,
  ⟨"???", .XXX, .Implied, 2⟩,
  ⟨"ISC", .ISC, .IndirectY, 8⟩,
  ⟨"IGN", .IGN, .ZeroPageX, 4⟩,
  ⟨"SBC", .SBC, .ZeroPageX, 4⟩,
  ⟨"INC", .INC, .ZeroPageX, 6⟩,
  ⟨"ISC", .ISC, .ZeroPageX, 6⟩,
  ⟨"SED", .SED, .Implied, 2⟩,
  ⟨"SBC", .SBC, .AbsoluteY, 4⟩,
  ⟨"NOP", .NOP, .Implied, 2⟩,
  ⟨"ISC", .ISC, .AbsoluteY, 7⟩,
  ⟨"IGN", .IGN, .AbsoluteX, 4⟩,
  ⟨"SBC", .SBC, .AbsoluteX, 4⟩,
  ⟨"INC", .INC, .AbsoluteX, 7⟩,
  ⟨"ISC", .ISC, .AbsoluteX, 7⟩]

/-- INSTRUCTIONS (src/opcodes.rs:162-435): the 256-entry opcode decode
table, in opcode order, split into its sixteen 16-entry rows. -/
def INSTRUCTIONS : List Instruction :=
  INSTRUCTIONS_row0 ++ INSTRUCTIONS_row1 ++ INSTRUCTIONS_row2 ++ INSTRUCTIONS_row3 ++
  INSTRUCTIONS_row4 ++ INSTRUCTIONS_row5 ++ INSTRUCTIONS_row6 ++ INSTRUCTIONS_row7 ++
  INSTRUCTIONS_row8 ++ INSTRUCTIONS_row9 ++ INSTRUCTIONS_row10 ++ INSTRUCTIONS_row11 ++
  INSTRUCTIONS_row12 ++ INSTRUCTIONS_row13 ++ INSTRUCTIONS_row14 ++ INSTRUCTIONS_row15

/-- Cpu::execute (src/cpu.rs:223-619): fetch the opcode at `pc`, decode
through INSTRUCTIONS, advance `pc`, resolve the operand, fetch the
argument when the operation consumes one, dispatch through
`execute_operation`, then account cycles. The `getD` default is
unreachable for genuine opcode bytes (always `< 256`). -/
def Cpu.execute (c : Cpu) (p : Ppu) (m : Memory) : Option (Cpu × Ppu × Memory) := do
  let (opcode, p, m) ← m.read_byte p c.pc false
  let inst := INSTRUCTIONS.getD opcode { name := "???", operation := .XXX, mode := .Implied, base_cycles := 2 }
  let c := { c with pc := (c.pc + 1) % 65536 }
  let (operand, c, p, m) ← c.fetch_operand p m inst.mode false
  let (argument, p, m) ←
    if operation_requires_fetched_argument inst.operation then
      c.fetch_args p m inst.mode operand.data
    else pure (0, p, m)
  let (has_extra_cycles, c, p, m) ← c.execute_operation p m inst.operation inst.mode operand argument
  let c :=
    if operand.additional_cycle && has_extra_cycles then
      { c with cycles := (c.cycles + 1) % 4294967296 }
    else c
  pure ({ c with cycles := (c.cycles + inst.base_cycles) % 4294967296 }, p, m)

/-- One iteration of the OAM scan loop inside Ppu::process_sprites
(src/ppu.rs:689-716): decode entry `i`, test whether the current
scanline intersects it, and either copy it into the secondary OAM (when
fewer than eight sprites have been found) or set SPRITE_OVERFLOW. -/
def Ppu.sprite_scan_step (p : Ppu) (i : Nat) : Ppu :=
  let entry := ObjectAttribute.fromBytes
    (p.object_attribute_memory (i * 4 + 0)) (p.object_attribute_memory (i * 4 + 1))
    (p.object_attribute_memory (i * 4 + 2)) (p.object_attribute_memory (i * 4 + 3))
  let y_difference : Int := p.scanline - (entry.y : Int)
  if 0 ≤ y_difference ∧ y_difference < (p.get_sprite_size : Int) then
    if p.current_scanline_sprites_count ≠ 8 then
      let p := if i = 0 then { p with sprite_zero_in_scanline := true } else p
      { p with
        current_scanline_sprites := fun j =>
          if j = p.current_scanline_sprites_count then entry else p.current_scanline_sprites j,
        current_scanline_sprites_count := p.current_scanline_sprites_count + 1 }
    else { p with ppu_status := setBits p.ppu_status SPRITE_OVERFLOW true }
  else p

/-- The sprite-evaluation step of Ppu::process_sprites
(src/ppu.rs:674-720): the block guarded by `cycles == 257 && scanline >= 0`.
Clear the secondary OAM (y = 255 in all eight slots, count 0, sprite
zero absent), scan all 64 OAM entries in order via `sprite_scan_step`,
then re-assign SPRITE_OVERFLOW to `count > 8` (src/ppu.rs:719). The
dot-340 shifter-priming block of process_sprites (src/ppu.rs:723-828)
is a separate phase that cannot run at dot 257 and never touches
PPUSTATUS, so it is outside this definition. -/
def Ppu.process_sprites_evaluation (p : Ppu) : Ppu :=
  if p.cycles = 257 ∧ p.scanline ≥ 0 then
    let p := { p with
      current_scanline_sprites := fun _ => { ObjectAttribute.default with y := 255 },
      current_scanline_sprites_count := 0,
      sprite_zero_in_scanline := false }
    let p := (List.range 64).foldl Ppu.sprite_scan_step p
    { p with ppu_status :=
        setBits p.ppu_status SPRITE_OVERFLOW (decide (p.current_scanline_sprites_count > 8)) }
  else p

/-!
Concrete machine states used by the closed evaluation theorems and by
the witnesses of the universally quantified theorems.
-/

/-- A test memory: zero RAM, a 16 KiB PRG ROM holding the reset vector
bytes `34 12` at its top (CPU addresses 0xfffc/0xfffd), an 8 KiB CHR ROM
filled with 0x55, horizontal mirroring, mapper 0. -/
def testMemory : Memory where
  ram := fun _ => 0
  pgr_rom := fun i => if i = 0x3ffc then 0x34 else if i = 0x3ffd then 0x12 else 0
  pgr_len := 0x4000
  chr_rom := fun _ => 0x55
  chr_len := 0x2000
  internal_controller := fun _ => 0
  controller := fun _ => 0
  rom_header :=
    { pgr_size := 0x4000, chr_size := 0x2000, flags_six := 0, flags_seven := 0,
      flags_eight := 0, flags_nine := 0, flags_ten := 0 }
  dma_page := 0
  dma_address := 0
  dma_data := 0
  dma_happening := false
  dma_waiting_for_sync := true

/-- PPU state for the PPUDATA increment evaluation: VRAM-increment bit
of PPUCTRL set, `v` = 0x0010, read buffer primed with 0xab. -/
def ppuAtC1 : Ppu :=
  { Ppu.default with ppu_control := VRAM_ADDR_INCREMENT, ppu_address := 0x10, data_buffer := 0xab }

/-- PPU state for the sprite-overflow evaluation: dot 257 of scanline 0,
8x8 sprites, all-zero OAM (so all 64 sprites have y = 0 and are in range
on scanline 0), and SPRITE_OVERFLOW already set beforehand. -/
def ppuAtC2 : Ppu :=
  { Ppu.default with cycles := 257, scanline := 0, ppu_status := SPRITE_OVERFLOW }

/-- Bus state for the indirect-JMP evaluation: PRG bytes `6C FF 02` at
CPU address 0x8000, RAM holding 0x34 at 0x02ff, 0x12 at 0x0200 and 0xaa
at 0x0300. -/
def memoryAtJmp : Memory :=
  { testMemory with
    ram := fun i =>
      if i = 0x2ff then 0x34 else if i = 0x200 then 0x12 else if i = 0x300 then 0xaa else 0,
    pgr_rom := fun i =>
      if i = 0 then 0x6c else if i = 1 then 0xff else if i = 2 then 0x02 else 0 }

/-- Bus state for the PHP/PLP evaluation: PRG bytes `08 28` (PHP then
PLP) at CPU address 0x8000. -/
def memoryAtPhp : Memory :=
  { testMemory with pgr_rom := fun i => if i = 0 then 0x08 else if i = 1 then 0x28 else 0 }

/-- A CPU state at the start of the PRG ROM, as left by reset. -/
def testCpu : Cpu := { pc := 0x8000, sp := 0xfd, a := 0, x := 0, y := 0, flags := 0x34, cycles := 7 }

/-!
Helper lemmas shared by the claim theorems.
-/

/-- Masking with 0x7ff is the identity below 0x800. -/
theorem and_0x7ff_of_le (x : Nat) (h : x ≤ 0x7ff) : x &&& 0x7ff = x := by
  have h2 := Nat.and_pow_two_sub_one_eq_mod x 11
  norm_num at h2
  rw [h2]
  omega

/-- Forcing bits 4 and 5 (the B and U flags) leaves the other byte bits,
selected by the mask 0xcf, untouched. -/
theorem or_b_u_and_0xcf (x : Nat) : ((x ||| 16) ||| 32) &&& 207 = x &&& 207 := by
  apply Nat.eq_of_testBit_eq
  intro i
  simp only [Nat.testBit_and, Nat.testBit_or]
  have h16 : (Nat.testBit 16 i && Nat.testBit 207 i) = false := by
    rw [← Nat.testBit_and, show (16 &&& 207 : Nat) = 0 by decide]
    exact Nat.zero_testBit i
  have h32 : (Nat.testBit 32 i && Nat.testBit 207 i) = false := by
    rw [← Nat.testBit_and, show (32 &&& 207 : Nat) = 0 by decide]
    exact Nat.zero_testBit i
  cases hx : x.testBit i <;> cases h207 : Nat.testBit 207 i <;> simp_all

/-- A CPU bus read below 0x2000 is a mirrored RAM read with no side
effect. -/
theorem read_byte_ram (m : Memory) (p : Ppu) (a : Nat) (d : Bool) (h : a ≤ 0x1fff) :
    Memory.read_byte m p a d = some (m.ram (a &&& 0x7ff), p, m) := by
  unfold Memory.read_byte
  rw [if_pos h]

/-- A CPU bus read in 0x8000-0xbfff hits the PRG ROM directly (when in
bounds) and has no side effect. -/
theorem read_byte_rom (m : Memory) (p : Ppu) (a : Nat) (d : Bool)
    (h1 : 0x8000 ≤ a) (h2 : a ≤ 0xbfff) (h3 : a - 0x8000 < m.pgr_len) :
    Memory.read_byte m p a d = some (m.pgr_rom (a - 0x8000), p, m) := by
  unfold Memory.read_byte
  rw [if_neg (by omega), if_neg (by omega), if_neg (by omega), if_neg (by omega),
      if_pos (by omega : 0x4020 ≤ a), if_pos (by omega : 0x8000 ≤ a ∧ a ≤ 0xbfff), if_pos h3]

/-!
Claim theorems.
-/

/-- C1: evaluation of the code at the failing input. In a normal
(debugger = false) CPU read of PPUDATA with PPUCTRL's VRAM-increment bit
SET and `v` = 0x0010, the read returns the previous buffer (0xab) and
refills the buffer from `ppu_read(v)` (0x55), but advances `v` to 0x0011
- by 1, not by the 32 the claim requires: src/ppu.rs:306 guards the
`+= 32` branch with `&& debugger`, so a normal read can never take it. -/
theorem ppudata_normal_read_ignores_vram_increment_bit :
    ((Ppu.read_byte_from_cpu ppuAtC1 testMemory 0x2007 false).map
      (fun r => (r.1, r.2.data_buffer, r.2.ppu_address)) = some (0xab, 0x55, 0x11)) ∧
    ppuAtC1.ppu_control &&& VRAM_ADDR_INCREMENT ≠ 0 ∧
    ppuAtC1.ppu_address = 0x10 ∧ ppuAtC1.data_buffer = 0xab ∧
    Ppu.read_byte_from_ppu ppuAtC1 testMemory 0x10 = some 0x55 :=
  ⟨rfl, by decide, rfl, rfl, rfl⟩

/-- C2: evaluation of the code at the failing input. At dot 257 of
scanline 0 with an all-zero OAM (all 64 sprites are 8x8 at y = 0, hence
in range), sprite evaluation finds a ninth in-range sprite, yet once the
step completes SPRITE_OVERFLOW is CLEAR - even though it was set on
entry - because src/ppu.rs:719 re-assigns the flag to `count > 8` and
the count is capped at 8. The secondary-OAM count ends at 8, so more
than eight sprites intersected the scanline. -/
theorem sprite_overflow_cleared_after_evaluation :
    (ppuAtC2.process_sprites_evaluation).ppu_status &&& SPRITE_OVERFLOW = 0 ∧
    (ppuAtC2.process_sprites_evaluation).current_scanline_sprites_count = 8 ∧
    ppuAtC2.ppu_status &&& SPRITE_OVERFLOW ≠ 0 ∧
    ppuAtC2.cycles = 257 ∧ ppuAtC2.scanline = 0 := by
  set_option maxRecDepth 4000 in
  exact ⟨rfl, rfl, by decide, rfl, rfl⟩

/-- C3: evaluation of the code at the failing input. A normal-mode CPU
read at 0x2008 (and likewise at 0x3fff) is NOT treated as a mirror of
the PPU registers: it falls through every arm of Memory::read_byte and
hits the panic (BusMapError), while a read of a genuine register address
such as 0x2002 succeeds. -/
theorem cpu_read_of_ppu_register_mirror_panics :
    Memory.read_byte testMemory Ppu.default 0x2008 false = none ∧
    Memory.read_byte testMemory Ppu.default 0x3fff false = none ∧
    (Memory.read_byte testMemory Ppu.default 0x2002 false).isSome = true :=
  ⟨rfl, rfl, rfl⟩

/-- C4: evaluation of the code at the failing input. A CPU write at
0x0800 is NOT mirrored into RAM[0]: Memory::write_byte only routes
`address <= 0x7ff` to RAM, so the write falls through to the panic
(BusMapError) - even though a READ at 0x0800 does return RAM[0], and a
write at the unmirrored address 0x0000 stores normally. -/
theorem cpu_write_to_ram_mirror_panics :
    Memory.write_byte testMemory Ppu.default 0x0800 0xab = none ∧
    (Memory.write_byte testMemory Ppu.default 0x0000 0xab).map (fun r => r.2.ram 0) =
      some 0xab ∧
    (Memory.read_byte testMemory Ppu.default 0x0800 false).map (fun r => r.1) =
      some (testMemory.ram 0) :=
  ⟨rfl, rfl, rfl⟩

/-- C5: the stack pointer wraps modulo 256. A push at sp = 0 completes
(the stack page 0x100-0x1ff is always mapped RAM) and leaves sp = 0xff;
a pop at sp = 0xff completes and leaves sp = 0. -/
theorem stack_pointer_wraps_modulo_256 (c1 c2 : Cpu) (p1 p2 : Ppu) (m1 m2 : Memory)
    (value : Nat) (h1 : c1.sp = 0) (h2 : c2.sp = 0xff) :
    (Cpu.push c1 p1 m1 value).map (fun r => r.1.sp) = some 0xff ∧
    (Cpu.pop c2 p2 m2).map (fun r => r.2.1.sp) = some 0 := by
  constructor
  · simp only [Cpu.push, h1]
    rfl
  · simp only [Cpu.pop, h2]
    rfl

/-- Witness for `stack_pointer_wraps_modulo_256` at sp = 0 / sp = 0xff. -/
theorem stack_pointer_wraps_modulo_256_witness :
    ({ testCpu with sp := 0 } : Cpu).sp = 0 ∧ ({ testCpu with sp := 0xff } : Cpu).sp = 0xff ∧
    (Cpu.push { testCpu with sp := 0 } Ppu.default testMemory 0xab).map (fun r => r.1.sp) =
      some 0xff ∧
    (Cpu.pop { testCpu with sp := 0xff } Ppu.default testMemory).map (fun r => r.2.1.sp) =
      some 0 := by
  refine ⟨rfl, rfl, ?_⟩
  exact stack_pointer_wraps_modulo_256 _ _ _ _ _ _ 0xab rfl rfl

/-- C6: constructing the CPU at reset from a cartridge whose reset
vector at 0xfffc reads as the little-endian word 0x1234 yields
pc = 0x1234, sp = 0xfd, flags = 0x34 (IntDisable, B, U) and cycles 7. -/
theorem reset_state_from_reset_vector (p p2 : Ppu) (m m2 : Memory)
    (h : Memory.read_word m p 0xfffc false = some (0x1234, p2, m2)) :
    (Cpu.from_memory p m).map (fun r => (r.1.pc, r.1.sp, r.1.flags, r.1.cycles)) =
      some (0x1234, 0xfd, 0x34, 7) := by
  simp only [Cpu.from_memory]
  rw [h]
  rfl

/-- Witness for `reset_state_from_reset_vector`: `testMemory` holds the
bytes 34 12 at 0xfffc/0xfffd of the mirrored 16 KiB PRG ROM. -/
theorem reset_state_from_reset_vector_witness :
    Memory.read_word testMemory Ppu.default 0xfffc false =
      some (0x1234, Ppu.default, testMemory) ∧
    (Cpu.from_memory Ppu.default testMemory).map
      (fun r => (r.1.pc, r.1.sp, r.1.flags, r.1.cycles)) = some (0x1234, 0xfd, 0x34, 7) :=
  ⟨rfl, reset_state_from_reset_vector _ _ _ _ rfl⟩

/-- C10: a CPU read of any write-only PPU register (PPUCTRL 0x2000,
PPUMASK 0x2001, OAMADDR 0x2003, PPUSCROLL 0x2005, PPUADDR 0x2006)
returns 0 and returns the PPU completely unchanged - in particular the
read buffer, the address latch, `v` and `t` are untouched. -/
theorem write_only_register_read_returns_zero (p : Ppu) (m : Memory) (debugger : Bool)
    (address : Nat)
    (h : address = 0x2000 ∨ address = 0x2001 ∨ address = 0x2003 ∨
         address = 0x2005 ∨ address = 0x2006) :
    Ppu.read_byte_from_cpu p m address debugger = some (0, p) := by
  rcases h with rfl | rfl | rfl | rfl | rfl <;> rfl

/-- Witness for `write_only_register_read_returns_zero` at 0x2005. -/
theorem write_only_register_read_returns_zero_witness :
    (0x2005 = 0x2000 ∨ 0x2005 = 0x2001 ∨ 0x2005 = 0x2003 ∨
      (0x2005 : Nat) = 0x2005 ∨ 0x2005 = 0x2006) ∧
    Ppu.read_byte_from_cpu ppuAtC1 testMemory 0x2005 true = some (0, ppuAtC1) :=
  ⟨by norm_num, write_only_register_read_returns_zero _ _ _ _ (by norm_num)⟩

/-- C9: a debugger-annotated CPU read of PPUDATA is not side-effect
free: it always overwrites the internal read buffer with `ppu_read(v)`,
and when PPUCTRL's VRAM-increment bit is set it additionally advances
`v` by 32; only when the bit is clear does `v` stay unchanged
(src/ppu.rs:306-307 with `debugger = true`). -/
theorem debugger_ppudata_read_side_effects (p : Ppu) (m : Memory) (fresh : Nat)
    (h1 : p.read_byte_from_ppu m p.ppu_address = some fresh)
    (h2 : p.ppu_address + 32 < 65536) :
    (p.read_byte_from_cpu m 0x2007 true).map (fun r => (r.2.data_buffer, r.2.ppu_address)) =
      some (fresh,
        if p.ppu_control &&& VRAM_ADDR_INCREMENT ≠ 0 then p.ppu_address + 32
        else p.ppu_address) := by
  simp only [Ppu.read_byte_from_cpu]
  norm_num
  rw [h1]
  by_cases hb : p.ppu_control &&& VRAM_ADDR_INCREMENT = 0
  · simp only [if_pos hb]
    exact ⟨_, _, rfl, rfl, rfl⟩
  · simp only [if_neg hb]
    exact ⟨_, _, rfl, rfl, Nat.mod_eq_of_lt h2⟩

/-- Witness for `debugger_ppudata_read_side_effects` on a PPU with the
increment bit set and `v` = 0x0010 (reading CHR byte 0x55). -/
theorem debugger_ppudata_read_side_effects_witness :
    Ppu.read_byte_from_ppu ppuAtC1 testMemory ppuAtC1.ppu_address = some 0x55 ∧
    ppuAtC1.ppu_address + 32 < 65536 ∧
    (Ppu.read_byte_from_cpu ppuAtC1 testMemory 0x2007 true).map
        (fun r => (r.2.data_buffer, r.2.ppu_address)) =
      some (0x55,
        if ppuAtC1.ppu_control &&& VRAM_ADDR_INCREMENT ≠ 0 then ppuAtC1.ppu_address + 32
        else ppuAtC1.ppu_address) :=
  ⟨rfl, by decide, debugger_ppudata_read_side_effects _ _ _ rfl (by decide)⟩

/-- C7: Indirect-mode operand resolution reproduces the hardware
page-wrap bug. Whenever the fetched 16-bit pointer has low byte 0xff,
the high byte of the effective address is read from the SAME page
(`pointer & 0xff00`, i.e. the pointer with its low byte replaced by
0x00) and never from `pointer + 1` (src/cpu.rs:183). -/
theorem indirect_operand_page_wrap_bug (c c2 : Cpu) (p : Ppu) (m : Memory)
    (pointer lo hi : Nat)
    (h1 : Cpu.read_word_for_operand c p m false = some (pointer, c2, p, m))
    (h2 : pointer &&& 0xff = 0xff)
    (h3 : Memory.read_byte m p pointer false = some (lo, p, m))
    (h4 : Memory.read_byte m p (pointer &&& 0xff00) false = some (hi, p, m)) :
    Cpu.fetch_operand c p m AddressingMode.Indirect false =
      some ({ data := (hi <<< 8) ||| lo, additional_cycle := false }, c2, p, m) := by
  simp only [Cpu.fetch_operand]
  rw [h1]
  simp only [h3, h2, if_pos, h4]

/-- Witness for `indirect_operand_page_wrap_bug`: the JMP ($02FF)
scenario. With PRG bytes `6C FF 02` at 0x8000, RAM 0x02ff = 0x34,
0x0200 = 0x12 and 0x0300 = 0xaa, operand resolution (after the opcode
byte, so at pc = 0x8001) yields 0x1234, and the full JMP instruction
sets pc = 0x1234 - not 0xaa34. -/
theorem indirect_operand_page_wrap_bug_witness :
    Cpu.read_word_for_operand { testCpu with pc := 0x8001 } Ppu.default memoryAtJmp false =
      some (0x2ff, { testCpu with pc := 0x8003 }, Ppu.default, memoryAtJmp) ∧
    (0x2ff : Nat) &&& 0xff = 0xff ∧
    Memory.read_byte memoryAtJmp Ppu.default 0x2ff false =
      some (0x34, Ppu.default, memoryAtJmp) ∧
    Memory.read_byte memoryAtJmp Ppu.default ((0x2ff : Nat) &&& 0xff00) false =
      some (0x12, Ppu.default, memoryAtJmp) ∧
    Cpu.fetch_operand { testCpu with pc := 0x8001 } Ppu.default memoryAtJmp
        AddressingMode.Indirect false =
      some ({ data := (0x12 <<< 8) ||| 0x34, additional_cycle := false },
        { testCpu with pc := 0x8003 }, Ppu.default, memoryAtJmp) ∧
    (Cpu.execute testCpu Ppu.default memoryAtJmp).map (fun r => r.1.pc) = some 0x1234 :=
  ⟨rfl, by decide, rfl, rfl,
    indirect_operand_page_wrap_bug _ _ _ _ _ _ _ rfl (by decide) rfl rfl, rfl⟩

/-- Unfolding of Cpu::execute for an Implied-mode instruction whose
operation takes no fetched argument: the step is the operation dispatch
followed by the base-cycle accounting. -/
theorem execute_implied (c : Cpu) (p : Ppu) (m : Memory) (opcode : Nat) (inst : Instruction)
    (hread : Memory.read_byte m p c.pc false = some (opcode, p, m))
    (hinst : INSTRUCTIONS.getD opcode
      { name := "???", operation := .XXX, mode := .Implied, base_cycles := 2 } = inst)
    (hmode : inst.mode = .Implied)
    (harg : operation_requires_fetched_argument inst.operation = false) :
    Cpu.execute c p m =
      (Cpu.execute_operation { c with pc := (c.pc + 1) % 65536 } p m inst.operation .Implied
          { data := 0, additional_cycle := false } 0).map
        (fun r => ({ r.2.1 with cycles := (r.2.1.cycles + inst.base_cycles) % 4294967296 },
          r.2.2)) := by
  simp only [Cpu.execute]
  rw [hread]
  simp only [Option.bind_eq_bind, Option.some_bind]
  rw [hinst, hmode]
  simp only [Cpu.fetch_operand, Option.bind_eq_bind, Option.some_bind, harg]
  simp only [Bool.false_eq_true, if_false, Option.pure_def, Option.bind_eq_bind,
    Option.some_bind]
  cases hop : Cpu.execute_operation { c with pc := (c.pc + 1) % 65536 } p m inst.operation
      AddressingMode.Implied { data := 0, additional_cycle := false } 0 with
  | none => rfl
  | some r => rfl


/-- The PHP arm (src/cpu.rs:437-441): pushes `flags | B | U` onto the
stack page and decrements sp, leaving the live flags untouched. -/
theorem execute_operation_php (c : Cpu) (p : Ppu) (m : Memory) (operand : Operand)
    (argument : Nat) (hsp : c.sp ≤ 0xff) :
    Cpu.execute_operation c p m .PHP .Implied operand argument =
      some (false, { c with sp := (c.sp + 255) % 256 }, p,
        { m with ram := fun i =>
          if i = 0x100 + c.sp then c.flags ||| B_FLAG ||| U_FLAG else m.ram i }) := by
  simp only [Cpu.execute_operation, Cpu.push, Memory.write_byte]
  rw [if_pos (by omega : 0x100 + c.sp ≤ 0x7ff)]
  rfl

/-- The PLP arm (src/cpu.rs:450): pops a byte off the stack page into
the full flags byte. -/
theorem execute_operation_plp (c : Cpu) (p : Ppu) (m : Memory) (operand : Operand)
    (argument : Nat) (hsp : c.sp + 1 < 256) :
    Cpu.execute_operation c p m .PLP .Implied operand argument =
      some (false, { c with sp := c.sp + 1, flags := m.ram (0x100 + (c.sp + 1)) }, p, m) := by
  simp only [Cpu.execute_operation, Cpu.pop]
  rw [Nat.mod_eq_of_lt hsp]
  rw [read_byte_ram m p (0x100 + (c.sp + 1)) false (by omega)]
  rw [and_0x7ff_of_le _ (by omega)]
  rfl


set_option maxHeartbeats 1000000 in
/-- C8: for any CPU state with sp ≥ 1 (and pc inside the PRG ROM window
holding the opcodes 0x08 = PHP and 0x28 = PLP), executing PHP pushes the
byte `flags | B | U` - the B and U bits forced to 1 in the pushed byte -
while the live flags stay unchanged and sp drops by one; executing the
following PLP then restores sp and loads `flags | B | U` into the flags,
so every flag bit other than B and U (the mask 0xcf) equals its original
value. -/
theorem php_plp_roundtrip (c : Cpu) (p : Ppu) (m : Memory)
    (hpc1 : 0x8000 ≤ c.pc) (hpc2 : c.pc + 1 ≤ 0xbfff)
    (hlen : c.pc + 1 - 0x8000 < m.pgr_len)
    (hop1 : m.pgr_rom (c.pc - 0x8000) = 0x08)
    (hop2 : m.pgr_rom (c.pc + 1 - 0x8000) = 0x28)
    (hsp1 : 1 ≤ c.sp) (hsp2 : c.sp ≤ 0xff) :
    ((Cpu.execute c p m).map (fun r => (r.1.sp, r.1.flags, r.2.2.ram (0x100 + c.sp))) =
      some (c.sp - 1, c.flags, c.flags ||| B_FLAG ||| U_FLAG)) ∧
    (((Cpu.execute c p m).bind (fun r => Cpu.execute r.1 r.2.1 r.2.2)).map
        (fun r => (r.1.sp, r.1.flags &&& 0xcf, r.1.flags)) =
      some (c.sp, c.flags &&& 0xcf, c.flags ||| B_FLAG ||| U_FLAG)) := by
  have epc : (c.pc + 1) % 65536 = c.pc + 1 := by omega
  have esp : (c.sp + 255) % 256 = c.sp - 1 := by omega
  have hread1 : Memory.read_byte m p c.pc false = some (0x08, p, m) := by
    rw [read_byte_rom m p c.pc false hpc1 (by omega) (by omega), hop1]
  have hdec1 : INSTRUCTIONS.getD 0x08
      { name := "???", operation := .XXX, mode := .Implied, base_cycles := 2 } =
      ({ name := "PHP", operation := .PHP, mode := .Implied, base_cycles := 3 } : Instruction) :=
    rfl
  have hex1 : Cpu.execute c p m =
      some (⟨c.pc + 1, c.sp - 1, c.a, c.x, c.y, c.flags, (c.cycles + 3) % 4294967296⟩, p,
        { m with ram := fun i =>
            if i = 0x100 + c.sp then c.flags ||| B_FLAG ||| U_FLAG else m.ram i }) := by
    rw [execute_implied c p m 0x08 _ hread1 hdec1 rfl rfl,
        execute_operation_php
          { pc := (c.pc + 1) % 65536, sp := c.sp, a := c.a, x := c.x, y := c.y,
            flags := c.flags, cycles := c.cycles } p m _ _ hsp2]
    simp only [Option.map_some']
    rw [epc, esp]
  have epc2 : (c.pc + 1 + 1) % 65536 = c.pc + 2 := by omega
  have esp2 : c.sp - 1 + 1 = c.sp := by omega
  have hrom2 : ({ m with ram := fun i =>
      if i = 0x100 + c.sp then c.flags ||| B_FLAG ||| U_FLAG else m.ram i } : Memory).pgr_rom
        (c.pc + 1 - 0x8000) = 0x28 := hop2
  have hread2 : Memory.read_byte
      { m with ram := fun i =>
        if i = 0x100 + c.sp then c.flags ||| B_FLAG ||| U_FLAG else m.ram i } p (c.pc + 1)
        false =
      some (0x28, p, { m with ram := fun i =>
        if i = 0x100 + c.sp then c.flags ||| B_FLAG ||| U_FLAG else m.ram i }) := by
    rw [read_byte_rom
          { m with ram := fun i =>
            if i = 0x100 + c.sp then c.flags ||| B_FLAG ||| U_FLAG else m.ram i }
          p (c.pc + 1) false (by omega) (by omega) hlen, hrom2]
  have hdec2 : INSTRUCTIONS.getD 0x28
      { name := "???", operation := .XXX, mode := .Implied, base_cycles := 2 } =
      ({ name := "PLP", operation := .PLP, mode := .Implied, base_cycles := 4 } : Instruction) :=
    rfl
  have hram : ({ m with ram := fun i =>
      if i = 0x100 + c.sp then c.flags ||| B_FLAG ||| U_FLAG else m.ram i } : Memory).ram
        (0x100 + (c.sp - 1 + 1)) = c.flags ||| B_FLAG ||| U_FLAG := by
    rw [esp2]
    simp
  have hex2 : Cpu.execute
      (⟨c.pc + 1, c.sp - 1, c.a, c.x, c.y, c.flags, (c.cycles + 3) % 4294967296⟩ : Cpu) p
      { m with ram := fun i =>
        if i = 0x100 + c.sp then c.flags ||| B_FLAG ||| U_FLAG else m.ram i } =
      some (⟨c.pc + 2, c.sp, c.a, c.x, c.y, c.flags ||| B_FLAG ||| U_FLAG,
          ((c.cycles + 3) % 4294967296 + 4) % 4294967296⟩, p,
        { m with ram := fun i =>
          if i = 0x100 + c.sp then c.flags ||| B_FLAG ||| U_FLAG else m.ram i }) := by
    rw [execute_implied _ p _ 0x28 _ hread2 hdec2 rfl rfl, epc2,
        execute_operation_plp
          { pc := c.pc + 2, sp := c.sp - 1, a := c.a, x := c.x, y := c.y,
            flags := c.flags, cycles := (c.cycles + 3) % 4294967296 } p _ _ _
          (show c.sp - 1 + 1 < 256 by omega)]
    simp only [Option.map_some', esp2, hram, if_true]
  constructor
  · rw [hex1]
    simp only [Option.map_some']
    simp
  · rw [hex1]
    simp only [Option.bind_eq_bind, Option.some_bind]
    rw [hex2]
    simp only [Option.map_some', Option.some.injEq, Prod.mk.injEq, eq_self_iff_true, true_and,
      and_true]
    simpa only [B_FLAG, U_FLAG] using or_b_u_and_0xcf c.flags

/-- Witness for `php_plp_roundtrip`: `testCpu` (pc 0x8000, sp 0xfd,
flags 0x34) against `memoryAtPhp` (PRG bytes `08 28`). -/
theorem php_plp_roundtrip_witness :
    ((Cpu.execute testCpu Ppu.default memoryAtPhp).map
        (fun r => (r.1.sp, r.1.flags, r.2.2.ram (0x100 + testCpu.sp))) =
      some (testCpu.sp - 1, testCpu.flags, testCpu.flags ||| B_FLAG ||| U_FLAG)) ∧
    (((Cpu.execute testCpu Ppu.default memoryAtPhp).bind
          (fun r => Cpu.execute r.1 r.2.1 r.2.2)).map
        (fun r => (r.1.sp, r.1.flags &&& 0xcf, r.1.flags)) =
      some (testCpu.sp, testCpu.flags &&& 0xcf, testCpu.flags ||| B_FLAG ||| U_FLAG)) :=
  php_plp_roundtrip testCpu Ppu.default memoryAtPhp (by decide) (by decide) (by decide)
    rfl rfl (by decide) (by decide)

end Nes
